import Mathlib

/-!
Shallow embedding of `boosting_in_sklearn.ipynb`.

The notebook is a single linear script:
  load CSV → dropna → correlation-based column selection → first
  train/test split (random_state=42) → AdaBoostRegressor fit +
  cross_val_score on the test partition → GridSearchCV → XGBRegressor fit
  + cross_val_score → derived boolean label (Mcz > 0.5) → second
  train/test split (no seed) → AdaBoostClassifier fit/score →
  GradientBoostingClassifier fit/score → precision/recall/confusion.

Data-frame cells are rationals (`ℚ`), missing entries, or booleans; the
learning algorithms inside the third-party library (the functions that map
a fitted model out of training data) are abstract parameters of the
pipeline, while everything the notebook itself determines — data flow,
splits, cloning, fold construction, metrics — is embedded concretely.
External randomness (what `numpy` would draw when no `random_state` is
given) is an explicit argument `rho : Nat → List Nat` supplying the
permutation used by the one unseeded `train_test_split`.
-/

namespace Boosting

/-- A cell of the data frame: a numeric value, a missing value (NaN), or a
boolean (the derived label column). -/
inductive Cell where
  | num (q : ℚ)
  | miss
  | bool (b : Bool)
deriving DecidableEq, Repr

/-- The in-memory data frame: a header of column names and one list of
cells per row, in file order. -/
structure Table where
  cols : List String
  rows : List (List Cell)
deriving DecidableEq, Repr

/-- The external CSV file as the program sees it: either absent (bad path)
or present with a header and data rows (a row whose width differs from the
header is a malformed file). -/
inductive CsvInput where
  | missingFile
  | file (header : List String) (cells : List (List Cell))

/-- `pd.read_csv('COMBO17.csv')`: raises (here: returns `.error`) on a bad
path or a malformed file, otherwise yields the data frame.  The notebook
wraps no call in any handler, so the error is final. -/
def read_csv : CsvInput → Except String Table
  | .missingFile => .error "FileNotFoundError"
  | .file h cs =>
      if cs.all (fun r => r.length == h.length) then .ok ⟨h, cs⟩
      else .error "ParserError"

/-- A row is complete when none of its cells is missing. -/
def rowComplete (r : List Cell) : Bool :=
  r.all (fun c => !(c == Cell.miss))

/-- `galaxies.dropna()` with the default arguments: keep exactly the rows
that have no missing value, in their original order. -/
def dropna (t : Table) : Table :=
  ⟨t.cols, t.rows.filter rowComplete⟩

/-- Position of a column name in the header, if present. -/
def colIdx (t : Table) (c : String) : Option Nat :=
  t.cols.findIdx? (fun s => s == c)

/-- Numeric reading of a cell, as pandas arithmetic would coerce it
(booleans count as 0/1; this is only ever applied to complete rows). -/
def cellVal : Cell → ℚ
  | .num q => q
  | .miss => 0
  | .bool b => if b then 1 else 0

/-- `galaxies[c]` as a numeric column (empty when the column is absent). -/
def getCol (t : Table) (c : String) : List ℚ :=
  match colIdx t c with
  | some i => t.rows.map (fun r => cellVal (r.getD i Cell.miss))
  | none => []

/-- Sum of a list of rationals. -/
def lsum (xs : List ℚ) : ℚ := xs.foldr (· + ·) 0

/-- `n·Σxy − Σx·Σy`: the Pearson covariance numerator, scaled by `n²`
relative to the sample covariance.  The scaling cancels in the correlation
ratio, so sign and threshold comparisons are unchanged. -/
def scov (xs ys : List ℚ) : ℚ :=
  (xs.length : ℚ) * lsum (List.zipWith (· * ·) xs ys) - lsum xs * lsum ys

/-- `n·Σx² − (Σx)²`: the same scaling of the variance; it is `0` exactly
when the column is constant (or has fewer than two entries), the case
where `DataFrame.corr` yields NaN. -/
def svar (xs : List ℚ) : ℚ := scov xs xs

/-- The test `abs(galaxies.corr()['Mcz'][ind]) > 0.5` of the notebook's
selection loop.  `corr` is NaN when either column is constant, and
`abs(NaN) > 0.5` is `False` in Python, hence the two positivity guards;
otherwise `|corr| > 1/2  ↔  4·cov² > varx·vary`, which avoids the square
root and stays in `ℚ`. -/
def corrAboveHalf (xs ys : List ℚ) : Bool :=
  decide (0 < svar xs) && decide (0 < svar ys) &&
    decide (svar xs * svar ys < 4 * scov xs ys ^ 2)

/-- The notebook's selection loop:
`for ind in galaxies.corr()['Mcz'].index: if abs(...) > 0.5: preds.append(ind)`.
The correlation-matrix index lists the (all-numeric) columns in header
order, so the loop is a filter of the header. -/
def preds (t : Table) : List String :=
  t.cols.filter (fun c => corrAboveHalf (getCol t c) (getCol t "Mcz"))

/-- The element-wise comparison `galaxies['Mcz'] > 0.5`. -/
def mczGtHalf (t : Table) : List Bool :=
  (getCol t "Mcz").map (fun q => decide ((1 : ℚ)/2 < q))

/-- The assignment `galaxies['bool'] = galaxies['Mcz'] > 0.5`: pandas
overwrites the column when it already exists and appends it otherwise. -/
def assignBool (t : Table) : Table :=
  match colIdx t "bool" with
  | some i =>
      ⟨t.cols, List.zipWith (fun r b => r.set i (Cell.bool b)) t.rows (mczGtHalf t)⟩
  | none =>
      ⟨t.cols ++ ["bool"], List.zipWith (fun r b => r ++ [Cell.bool b]) t.rows (mczGtHalf t)⟩

/-- Boolean reading of a cell (pandas truthiness: nonzero numbers are
true; only used on the derived label column). -/
def cellBool : Cell → Bool
  | .num q => decide (q ≠ 0)
  | .miss => false
  | .bool b => b

/-- `galaxies['bool']` read back from the frame as a boolean column. -/
def boolColOf (t : Table) : List Bool :=
  match colIdx t "bool" with
  | some i => t.rows.map (fun r => cellBool (r.getD i Cell.miss))
  | none => []

/-- `ceil(0.25 * n)`: sklearn's test-partition size for the default
`test_size=0.25`. -/
def nTest (n : Nat) : Nat := (n + 3) / 4

/-- Select the elements of `xs` at the positions listed in `p`. -/
def applyPerm (p : List Nat) (xs : List α) : List α :=
  p.filterMap (fun i => xs[i]?)

/-- The four outputs of `train_test_split`. -/
structure Split (α β : Type) where
  xTrain : List α
  xTest : List α
  yTrain : List β
  yTest : List β
deriving DecidableEq, Repr

/-- `sklearn.model_selection.train_test_split` given the permutation its
random source produced: the first `ceil(n/4)` shuffled positions form the
test partition, the rest the training partition. -/
def train_test_split (perm : List Nat) (xs : List α) (ys : List β) : Split α β :=
  let k := nTest xs.length
  ⟨applyPerm (perm.drop k) xs, applyPerm (perm.take k) xs,
   applyPerm (perm.drop k) ys, applyPerm (perm.take k) ys⟩

/-- A linear congruential step standing in for numpy's seeded generator.
Only its determinism matters to any claim; no claim depends on the
particular permutation a seed yields. -/
def lcg (s : Nat) : Nat := (1664525 * s + 1013904223) % 4294967296

/-- Draw without replacement from `xs`, driven by the generator state. -/
def permDraw : Nat → Nat → List Nat → List Nat
  | 0, _, _ => []
  | fuel + 1, s, xs =>
      let j := s % xs.length
      match xs[j]? with
      | some v => v :: permDraw fuel (lcg s) (xs.eraseIdx j)
      | none => []

/-- Model of numpy's seeded random permutation of `0, …, n−1`: a
deterministic function of the seed (here a Fisher–Yates style draw from an
LCG; the Mersenne Twister's exact values are irrelevant to every claim). -/
def permOfSeed (seed n : Nat) : List Nat :=
  permDraw n (lcg seed) (List.range n)

/-- `AdaBoostRegressor` constructor arguments (sklearn defaults plus the
notebook's `random_state=42`). -/
structure ABRParams where
  n_estimators : Nat
  loss : String
  random_state : Option Nat
deriving DecidableEq, Repr

/-- `AdaBoostRegressor(random_state=42)`. -/
def abrParams : ABRParams := ⟨50, "linear", some 42⟩

/-- `XGBRegressor` constructor arguments used by the notebook. -/
structure XGBParams where
  random_state : Option Nat
  objective : String
deriving DecidableEq, Repr

/-- `xgboost.XGBRegressor(random_state=42, objective='reg:squarederror')`. -/
def xgbParams : XGBParams := ⟨some 42, "reg:squarederror"⟩

/-- `AdaBoostClassifier` constructor arguments. -/
structure ABCParams where
  n_estimators : Nat
  random_state : Option Nat
deriving DecidableEq, Repr

/-- `AdaBoostClassifier(random_state=42)`. -/
def abcParams : ABCParams := ⟨50, some 42⟩

/-- `GradientBoostingClassifier` constructor arguments. -/
structure GBCParams where
  n_estimators : Nat
  random_state : Option Nat
deriving DecidableEq, Repr

/-- `GradientBoostingClassifier(random_state=42)`. -/
def gbcParams : GBCParams := ⟨100, some 42⟩

/-- The library's regression learning algorithm, abstractly: from
constructor parameters and training data to a prediction function.  The
parameters carry the `random_state`, so a learner is a deterministic
function of parameters and data, exactly as a seeded sklearn estimator
is. -/
def RegLearner (P : Type) : Type := P → List ℚ → List ℚ → (ℚ → ℚ)

/-- The library's classification learning algorithm, abstractly. -/
def ClsLearner (P : Type) : Type := P → List ℚ → List Bool → (ℚ → Bool)

/-- A regressor object: its constructor parameters and (after `fit`) its
learned prediction function. -/
structure Reg (P : Type) where
  params : P
  fitted : Option (ℚ → ℚ)

/-- `sklearn.base.clone`: a new estimator with the same constructor
parameters and no fitted state. -/
def clone (m : Reg P) : Reg P := ⟨m.params, none⟩

/-- `estimator.fit(xs, ys)`: learn a prediction function. -/
def fitReg (L : RegLearner P) (m : Reg P) (xs ys : List ℚ) : Reg P :=
  ⟨m.params, some (L m.params xs ys)⟩

/-- Start of the `i`-th of `cv` contiguous KFold test blocks over `n`
samples (the first `n % cv` folds get the extra element). -/
def foldStart (n cv i : Nat) : Nat := i * (n / cv) + min i (n % cv)

/-- `sklearn.metrics.r2_score`, the default scorer of a regressor. -/
def r2Score (yTrue yPred : List ℚ) : ℚ :=
  let m := lsum yTrue / (yTrue.length : ℚ)
  let ssRes := lsum (List.zipWith (fun a b => (a - b) ^ 2) yTrue yPred)
  let ssTot := lsum (yTrue.map (fun a => (a - m) ^ 2))
  1 - ssRes / ssTot

/-- `sklearn.model_selection.cross_val_score(est, xs, ys, cv)`: per the
library's documented semantics it CLONES the estimator (keeping only
constructor parameters, discarding any fitted state), refits the clone on
the training side of each unshuffled KFold fold of the data it is given,
and scores on that fold's held-out block. -/
def cross_val_score (L : RegLearner P) (m : Reg P) (xs ys : List ℚ) (cv : Nat) :
    List ℚ :=
  (List.range cv).map (fun i =>
    let lo := foldStart xs.length cv i
    let hi := foldStart xs.length cv (i + 1)
    let testI := List.range' lo (hi - lo)
    let trainI := (List.range xs.length).filter (fun j => decide (j < lo) || decide (hi ≤ j))
    let f := L (clone m).params (applyPerm trainI xs) (applyPerm trainI ys)
    r2Score (applyPerm testI ys) ((applyPerm testI xs).map f))

/-- Mean of a list of scores. -/
def meanQ (xs : List ℚ) : ℚ := lsum xs / (xs.length : ℚ)

/-- The notebook's grid: `n_estimators in [25, 50, 100]`,
`loss in ['linear', 'square']`, over the base estimator's parameters. -/
def paramGrid (base : ABRParams) : List ABRParams :=
  (["linear", "square"].map (fun l =>
    [25, 50, 100].map (fun n => { base with n_estimators := n, loss := l }))).flatten

/-- `GridSearchCV(estimator=abr, param_grid=…, cv=5).fit(xs, ys).best_params_`:
each grid point is evaluated by 5-fold cross-validation of a fresh clone on
the given data; the first point attaining the maximal mean score wins. -/
def gridSearchBest (L : RegLearner ABRParams) (base : ABRParams)
    (xs ys : List ℚ) : ABRParams :=
  let scored := (paramGrid base).map
    (fun p => (p, meanQ (cross_val_score L ⟨p, none⟩ xs ys 5)))
  match scored with
  | [] => base
  | h :: tl => (tl.foldl (fun a b => if a.2 < b.2 then b else a) h).1

/-- `sklearn.metrics.accuracy_score` (what `classifier.score` computes). -/
def accuracy_score (yTrue yPred : List Bool) : ℚ :=
  (((List.zip yTrue yPred).countP (fun pr => pr.1 == pr.2) : ℚ)) / (yTrue.length : ℚ)

/-- Count of outcomes with true label `a` and predicted label `b`. -/
def countTP (yTrue yPred : List Bool) (a b : Bool) : Nat :=
  (List.zip yTrue yPred).countP (fun pr => pr.1 == a && pr.2 == b)

/-- `sklearn.metrics.precision_score` (`TP/(TP+FP)`, 0 when undefined —
division by zero is 0 in `ℚ`, as in sklearn's zero-division default). -/
def precision_score (yTrue yPred : List Bool) : ℚ :=
  (countTP yTrue yPred true true : ℚ) /
    ((countTP yTrue yPred true true : ℚ) + (countTP yTrue yPred false true : ℚ))

/-- `sklearn.metrics.recall_score` (`TP/(TP+FN)`). -/
def recall_score (yTrue yPred : List Bool) : ℚ :=
  (countTP yTrue yPred true true : ℚ) /
    ((countTP yTrue yPred true true : ℚ) + (countTP yTrue yPred true false : ℚ))

/-- `sklearn.metrics.confusion_matrix` as `((TN, FP), (FN, TP))`. -/
def confusion_matrix (yTrue yPred : List Bool) : (Nat × Nat) × (Nat × Nat) :=
  ((countTP yTrue yPred false false, countTP yTrue yPred false true),
   (countTP yTrue yPred true false, countTP yTrue yPred true true))

/-- Everything the notebook computes after a successful load, cell by
cell.  The `…FitX`/`…FitY` fields record the data each `fit` call
consumed. -/
structure RunOutputs where
  galaxiesFinal : Table
  predsList : List String
  split1 : Split ℚ ℚ
  abrFitX : List ℚ
  abrFitY : List ℚ
  abrCv : List ℚ
  gsFitX : List ℚ
  gsBestParams : ABRParams
  xgbFitX : List ℚ
  xgbCv : List ℚ
  split2 : Split ℚ Bool
  abcFitX : List ℚ
  abcFitY : List Bool
  abcScore : ℚ
  abcPrecision : ℚ
  abcRecall : ℚ
  gbcFitX : List ℚ
  gbcFitY : List Bool
  gbcScore : ℚ
  gbcPrecision : ℚ
  gbcRecall : ℚ
  gbcConfusion : (Nat × Nat) × (Nat × Nat)

/-- The notebook body after `read_csv`, cell by cell in order.  `rho`
models the ambient (OS-seeded) randomness: the permutation numpy would
produce for the single `train_test_split` that passes no `random_state`.
Every other random consumer fixes `random_state=42` and so ignores
`rho`. -/
def pipeline (Labr : RegLearner ABRParams) (Lxgb : RegLearner XGBParams)
    (Labc : ClsLearner ABCParams) (Lgbc : ClsLearner GBCParams)
    (g0 : Table) (rho : Nat → List Nat) : RunOutputs :=
  let g1 := dropna g0
  let ps := preds g1
  let x := getCol g1 "S280MAG"
  let y := getCol g1 "Mcz"
  let s1 := train_test_split (permOfSeed 42 x.length) x y
  let abr := fitReg Labr ⟨abrParams, none⟩ s1.xTrain s1.yTrain
  let abrCv := cross_val_score Labr abr s1.xTest s1.yTest 5
  let best := gridSearchBest Labr abrParams s1.xTrain s1.yTrain
  let xgb := fitReg Lxgb ⟨xgbParams, none⟩ s1.xTrain s1.yTrain
  let xgbCv := cross_val_score Lxgb xgb s1.xTest s1.yTest 5
  let g2 := assignBool g1
  let yb := boolColOf g2
  let s2 := train_test_split (rho x.length) x yb
  let fabc := Labc abcParams s2.xTrain s2.yTrain
  let abcPreds := s2.xTest.map fabc
  let fgbc := Lgbc gbcParams s2.xTest s2.yTest
  let gbcPreds := s2.xTest.map fgbc
  { galaxiesFinal := g2
    predsList := ps
    split1 := s1
    abrFitX := s1.xTrain
    abrFitY := s1.yTrain
    abrCv := abrCv
    gsFitX := s1.xTrain
    gsBestParams := best
    xgbFitX := s1.xTrain
    xgbCv := xgbCv
    split2 := s2
    abcFitX := s2.xTrain
    abcFitY := s2.yTrain
    abcScore := accuracy_score s2.yTest abcPreds
    abcPrecision := precision_score s2.yTest abcPreds
    abcRecall := recall_score s2.yTest abcPreds
    gbcFitX := s2.xTest
    gbcFitY := s2.yTest
    gbcScore := accuracy_score s2.yTest gbcPreds
    gbcPrecision := precision_score s2.yTest gbcPreds
    gbcRecall := recall_score s2.yTest gbcPreds
    gbcConfusion := confusion_matrix s2.yTest gbcPreds }

/-- The whole program: load, then — only on success — the rest of the
notebook.  No cell is wrapped in a handler, so a load error is the final
result and nothing further runs. -/
def run (Labr : RegLearner ABRParams) (Lxgb : RegLearner XGBParams)
    (Labc : ClsLearner ABCParams) (Lgbc : ClsLearner GBCParams)
    (input : CsvInput) (rho : Nat → List Nat) : Except String RunOutputs :=
  (read_csv input).map (fun g0 => pipeline Labr Lxgb Labc Lgbc g0 rho)

/-- The mathematical Pearson correlation coefficient of two columns, as
the spec's words state it (the `n²` scaling of `scov`/`svar` cancels in
the ratio, so this equals the textbook sample correlation).  This is the
spec-side formulation against which the code's square-free test
`corrAboveHalf` is compared; being a real number built with `Real.sqrt` it
is the one deliberately non-executable definition here. -/
noncomputable def pearsonCorr (xs ys : List ℚ) : ℝ :=
  (scov xs ys : ℝ) / (Real.sqrt ((svar xs : ℝ)) * Real.sqrt ((svar ys : ℝ)))

/-- Concrete table for the C3 witness: three rows with `Mcz` equal to
`1/2`, `1` and `0`. -/
def c3Table : Table :=
  ⟨["Mcz"], [[Cell.num ((1 : ℚ)/2)], [Cell.num 1], [Cell.num 0]]⟩

/-- An eight-row concrete table used by several instances: `Mcz` is `1`
on every row but the third (where it is `0`), and `S280MAG` is
identically `0`. -/
def tbl8 : Table :=
  ⟨["Mcz", "S280MAG"],
   [[Cell.num 1, Cell.num 0], [Cell.num 1, Cell.num 0], [Cell.num 0, Cell.num 0],
    [Cell.num 1, Cell.num 0], [Cell.num 1, Cell.num 0], [Cell.num 1, Cell.num 0],
    [Cell.num 1, Cell.num 0], [Cell.num 1, Cell.num 0]]⟩

/-- One possible ambient-randomness draw: the identity permutation. -/
def rhoA : Nat → List Nat := fun _ => [0, 1, 2, 3, 4, 5, 6, 7]

/-- Another possible ambient-randomness draw, moving the third row into
the test block. -/
def rhoB : Nat → List Nat := fun _ => [1, 2, 0, 3, 4, 5, 6, 7]

/-- A two-row table whose `Mcz` column is constant: `DataFrame.corr`
yields NaN against a constant column, so nothing — `Mcz` included — passes
the `> 0.5` test. -/
def constMczTable : Table :=
  ⟨["Mcz", "S280MAG"], [[Cell.num 1, Cell.num 0], [Cell.num 1, Cell.num 3]]⟩

/-- A two-row table with non-constant `Mcz`, for the C10 witness. -/
def varMczTable : Table :=
  ⟨["Mcz", "S280MAG"], [[Cell.num 0, Cell.num 5], [Cell.num 1, Cell.num 7]]⟩

/-- A learner that ignores its input (used only to instantiate witnesses). -/
def trivialReg (P : Type) : RegLearner P := fun _ _ _ => fun _ => 0

/-- A classifier learner that ignores its input (witnesses only). -/
def trivialCls (P : Type) : ClsLearner P := fun _ _ _ => fun _ => false

/-! Helper lemmas about column lookup and the label column. -/

theorem colIdx_eq_none (t : Table) (c : String) (h : c ∉ t.cols) :
    colIdx t c = none := by
  unfold colIdx
  rw [List.findIdx?_eq_none_iff]
  intro x hx
  simp only [beq_eq_false_iff_ne, ne_eq]
  rintro rfl
  exact h hx

theorem colIdx_isSome (t : Table) (c : String) (h : c ∈ t.cols) :
    (colIdx t c).isSome := by
  cases hi : colIdx t c with
  | some i => rfl
  | none =>
      unfold colIdx at hi
      rw [List.findIdx?_eq_none_iff] at hi
      have := hi c h
      simp at this

theorem findIdx?_not_mem_append (l : List String) (c : String) (h : c ∉ l) :
    ∀ i : Nat, List.findIdx? (fun s => s == c) (l ++ [c]) i = some (i + l.length) := by
  induction l with
  | nil => intro i; simp [List.findIdx?_cons]
  | cons x xs ih =>
      intro i
      have hx : (x == c) = false := by
        simp only [beq_eq_false_iff_ne, ne_eq]
        rintro rfl
        exact h (List.mem_cons_self _ _)
      rw [List.cons_append, List.findIdx?_cons, hx]
      rw [if_neg (fun hff => by simp at hff)]
      rw [ih (fun hc => h (List.mem_cons_of_mem _ hc)) (i + 1)]
      simp only [List.length_cons, Option.some.injEq]
      omega

theorem length_getCol_le (t : Table) (c : String) :
    (getCol t c).length ≤ t.rows.length := by
  unfold getCol
  cases colIdx t c with
  | some i => simp
  | none => simp

theorem length_getCol_of_mem (t : Table) (c : String) (h : c ∈ t.cols) :
    (getCol t c).length = t.rows.length := by
  have hs := colIdx_isSome t c h
  unfold getCol
  cases hi : colIdx t c with
  | some i => simp
  | none => rw [hi] at hs; simp at hs

theorem zipWith_appendBool_getD (n : Nat) :
    ∀ (rs : List (List Cell)) (bs : List Bool), (∀ r ∈ rs, r.length = n) →
      (List.zipWith (fun r b => r ++ [Cell.bool b]) rs bs).map
        (fun r => cellBool (r.getD n Cell.miss)) = bs.take rs.length := by
  intro rs
  induction rs with
  | nil => intro bs _; simp
  | cons r rs ih =>
      intro bs hlen
      cases bs with
      | nil => simp
      | cons b bs =>
          have hr : r.length = n := hlen r (List.mem_cons_self _ _)
          simp only [List.zipWith_cons_cons, List.map_cons, List.length_cons,
            List.take_succ_cons, List.cons.injEq]
          constructor
          · rw [← hr, List.getD_append_right _ _ _ _ (le_refl _)]
            simp [cellBool]
          · exact ih bs (fun r' hr' => hlen r' (List.mem_cons_of_mem _ hr'))

theorem zipWith_appendBool_take (n : Nat) :
    ∀ (rs : List (List Cell)) (bs : List Bool), (∀ r ∈ rs, r.length = n) →
      (List.zipWith (fun r b => r ++ [Cell.bool b]) rs bs).map
        (fun r => r.take n) = rs.take bs.length := by
  intro rs
  induction rs with
  | nil => intro bs _; simp
  | cons r rs ih =>
      intro bs hlen
      cases bs with
      | nil => simp
      | cons b bs =>
          have hr : r.length = n := hlen r (List.mem_cons_self _ _)
          simp only [List.zipWith_cons_cons, List.map_cons, List.length_cons,
            List.take_succ_cons, List.cons.injEq]
          constructor
          · rw [← hr, List.take_left]
          · exact ih bs (fun r' hr' => hlen r' (List.mem_cons_of_mem _ hr'))

/-- Reading `galaxies['bool']` back after the assignment yields exactly the
element-wise comparison `galaxies['Mcz'] > 0.5` (the table's rows being as
wide as its header, and no `bool` column pre-existing, as holds for any
loaded CSV). -/
theorem boolColOf_assignBool (t : Table) (hb : "bool" ∉ t.cols)
    (hr : ∀ r ∈ t.rows, r.length = t.cols.length) :
    boolColOf (assignBool t) = mczGtHalf t := by
  have hmatch : assignBool t =
      ⟨t.cols ++ ["bool"],
        List.zipWith (fun r b => r ++ [Cell.bool b]) t.rows (mczGtHalf t)⟩ := by
    unfold assignBool
    rw [colIdx_eq_none t "bool" hb]
  rw [hmatch]
  have hfind : colIdx
      (⟨t.cols ++ ["bool"],
        List.zipWith (fun r b => r ++ [Cell.bool b]) t.rows (mczGtHalf t)⟩ : Table)
      "bool" = some t.cols.length := by
    unfold colIdx
    simpa using findIdx?_not_mem_append t.cols "bool" hb 0
  unfold boolColOf
  rw [hfind]
  simp only
  rw [zipWith_appendBool_getD t.cols.length t.rows (mczGtHalf t) hr]
  apply List.take_of_length_le
  calc (mczGtHalf t).length = (getCol t "Mcz").length := by simp [mczGtHalf]
    _ ≤ t.rows.length := length_getCol_le t "Mcz"

/-! The claims. -/

/-- C2: `dropna` removes exactly the rows containing at least one missing
value, and keeps every complete row unchanged, in the original order (a
sublist of the original rows); the header is untouched and nothing else is
done to the data. -/
theorem c2_dropna_removes_exactly_incomplete_rows (t : Table) :
    (dropna t).cols = t.cols ∧
    (dropna t).rows.Sublist t.rows ∧
    ∀ r, r ∈ (dropna t).rows ↔ r ∈ t.rows ∧ ∀ c ∈ r, c ≠ Cell.miss := by
  refine ⟨rfl, List.filter_sublist _, fun r => ?_⟩
  simp [dropna, List.mem_filter, rowComplete, List.all_eq_true]

/-- C3: in the cleaned table the derived label column is, row for row,
exactly the comparison `Mcz > 0.5`: the label is `true` iff the row's
`Mcz` value is strictly greater than `1/2`, and a row whose `Mcz` equals
`1/2` is labelled `false`. -/
theorem c3_bool_label_iff_mcz_gt_half (t : Table) (hb : "bool" ∉ t.cols)
    (hr : ∀ r ∈ t.rows, r.length = t.cols.length) :
    boolColOf (assignBool t) =
      (getCol t "Mcz").map (fun q => decide ((1 : ℚ)/2 < q)) ∧
    (∀ (i : Nat) (q : ℚ), (getCol t "Mcz")[i]? = some q →
      ((boolColOf (assignBool t))[i]? = some true ↔ (1 : ℚ)/2 < q)) ∧
    (∀ (i : Nat) (q : ℚ), (getCol t "Mcz")[i]? = some q → q = (1 : ℚ)/2 →
      (boolColOf (assignBool t))[i]? = some false) := by
  have hcol : boolColOf (assignBool t) =
      (getCol t "Mcz").map (fun q => decide ((1 : ℚ)/2 < q)) :=
    boolColOf_assignBool t hb hr
  refine ⟨hcol, fun i q hq => ?_, fun i q hq hhalf => ?_⟩
  · rw [hcol, List.getElem?_map, hq]
    simp
  · rw [hcol, List.getElem?_map, hq, hhalf]
    simp

/-- Witness for C3 at `c3Table`: the hypotheses hold, and the row whose
`Mcz` is exactly `1/2` gets the label `false`. -/
theorem c3_bool_label_iff_mcz_gt_half_witness :
    ("bool" ∉ c3Table.cols ∧ ∀ r ∈ c3Table.rows, r.length = c3Table.cols.length) ∧
    (boolColOf (assignBool c3Table))[0]? = some false :=
  ⟨⟨by decide, by decide⟩,
    (c3_bool_label_iff_mcz_gt_half c3Table (by decide) (by decide)).2.2 0
      ((1 : ℚ)/2) rfl rfl⟩

/-- C5: when loading the CSV fails (bad path or malformed file), the
exception is the program's final result: nothing catches it, no later
pipeline step runs, and no `RunOutputs` state is produced. -/
theorem c5_load_error_propagates_uncaught
    (Labr : RegLearner ABRParams) (Lxgb : RegLearner XGBParams)
    (Labc : ClsLearner ABCParams) (Lgbc : ClsLearner GBCParams)
    (input : CsvInput) (rho : Nat → List Nat) (e : String)
    (h : read_csv input = .error e) :
    run Labr Lxgb Labc Lgbc input rho = .error e := by
  simp [run, h, Except.map]

/-- Witness for C5 at a missing file: the load fails and the whole run is
that very error. -/
theorem c5_load_error_propagates_uncaught_witness :
    read_csv CsvInput.missingFile = Except.error "FileNotFoundError" ∧
    run (fun _ _ _ => fun _ => 0) (fun _ _ _ => fun _ => 0)
      (fun _ _ _ => fun _ => false) (fun _ _ _ => fun _ => false)
      CsvInput.missingFile (fun _ => []) = Except.error "FileNotFoundError" :=
  ⟨rfl,
    c5_load_error_propagates_uncaught (fun _ _ _ => fun _ => 0)
      (fun _ _ _ => fun _ => 0) (fun _ _ _ => fun _ => false)
      (fun _ _ _ => fun _ => false) CsvInput.missingFile (fun _ => [])
      "FileNotFoundError" rfl⟩

/-- C6: both reported cross-validation arrays are exactly what
`cross_val_score` computes for a NEVER-fitted estimator with the same
constructor parameters on the test partition of the first split — the fits
on the training partition leave no trace, because `cross_val_score` clones
and refits on folds of only the data it is handed; and in general the
fitted state of the estimator passed to `cross_val_score` is irrelevant to
its result. -/
theorem c6_cross_val_refits_clones_on_test_partition
    (Labr : RegLearner ABRParams) (Lxgb : RegLearner XGBParams)
    (Labc : ClsLearner ABCParams) (Lgbc : ClsLearner GBCParams)
    (g0 : Table) (rho : Nat → List Nat) :
    (pipeline Labr Lxgb Labc Lgbc g0 rho).abrCv =
      cross_val_score Labr ⟨abrParams, none⟩
        (pipeline Labr Lxgb Labc Lgbc g0 rho).split1.xTest
        (pipeline Labr Lxgb Labc Lgbc g0 rho).split1.yTest 5 ∧
    (pipeline Labr Lxgb Labc Lgbc g0 rho).xgbCv =
      cross_val_score Lxgb ⟨xgbParams, none⟩
        (pipeline Labr Lxgb Labc Lgbc g0 rho).split1.xTest
        (pipeline Labr Lxgb Labc Lgbc g0 rho).split1.yTest 5 ∧
    ∀ (P : Type) (L : RegLearner P) (p : P) (st1 st2 : Option (ℚ → ℚ))
      (xs ys : List ℚ) (cv : Nat),
        cross_val_score L ⟨p, st1⟩ xs ys cv = cross_val_score L ⟨p, st2⟩ xs ys cv :=
  ⟨rfl, rfl, fun _ _ _ _ _ _ _ _ => rfl⟩

/-- C7: the regression stage is deterministic: with the first split and
both regressors pinned to `random_state=42`, two executions differing only
in the ambient randomness produce the identical first train/test partition
and identical cross-validation score arrays for `AdaBoostRegressor` and
`XGBRegressor`. -/
theorem c7_regression_stage_deterministic
    (Labr : RegLearner ABRParams) (Lxgb : RegLearner XGBParams)
    (Labc : ClsLearner ABCParams) (Lgbc : ClsLearner GBCParams)
    (g0 : Table) (rho1 rho2 : Nat → List Nat) :
    (pipeline Labr Lxgb Labc Lgbc g0 rho1).split1 =
      (pipeline Labr Lxgb Labc Lgbc g0 rho2).split1 ∧
    (pipeline Labr Lxgb Labc Lgbc g0 rho1).abrCv =
      (pipeline Labr Lxgb Labc Lgbc g0 rho2).abrCv ∧
    (pipeline Labr Lxgb Labc Lgbc g0 rho1).xgbCv =
      (pipeline Labr Lxgb Labc Lgbc g0 rho2).xgbCv :=
  ⟨rfl, rfl, rfl⟩

/-- The code's square-free threshold test agrees with the strict
`|Pearson| > 1/2` comparison whenever both variances are positive. -/
theorem scov_sq_lt_iff_abs_pearson (x y : List ℚ)
    (hx : 0 < svar x) (hy : 0 < svar y) :
    (svar x * svar y < 4 * scov x y ^ 2) ↔ (1 : ℝ)/2 < |pearsonCorr x y| := by
  have hxR : (0 : ℝ) < (svar x : ℝ) := by exact_mod_cast hx
  have hyR : (0 : ℝ) < (svar y : ℝ) := by exact_mod_cast hy
  have ha : 0 < Real.sqrt ((svar x : ℝ)) := Real.sqrt_pos.mpr hxR
  have hb : 0 < Real.sqrt ((svar y : ℝ)) := Real.sqrt_pos.mpr hyR
  have hab : 0 < Real.sqrt ((svar x : ℝ)) * Real.sqrt ((svar y : ℝ)) := mul_pos ha hb
  have ha2 : Real.sqrt ((svar x : ℝ)) ^ 2 = (svar x : ℝ) := Real.sq_sqrt hxR.le
  have hb2 : Real.sqrt ((svar y : ℝ)) ^ 2 = (svar y : ℝ) := Real.sq_sqrt hyR.le
  have habs : |(scov x y : ℝ)| ^ 2 = (scov x y : ℝ) ^ 2 := sq_abs _
  have habsnn : (0 : ℝ) ≤ |(scov x y : ℝ)| := abs_nonneg _
  rw [pearsonCorr, abs_div, abs_of_pos hab, lt_div_iff₀ hab]
  constructor
  · intro h
    have hR : (svar x : ℝ) * (svar y : ℝ) < 4 * (scov x y : ℝ) ^ 2 := by
      exact_mod_cast h
    nlinarith [hab, habs, habsnn, ha2, hb2,
      sq_nonneg (Real.sqrt ((svar x : ℝ)) * Real.sqrt ((svar y : ℝ)) -
        2 * |(scov x y : ℝ)|)]
  · intro h
    have hR : (svar x : ℝ) * (svar y : ℝ) < 4 * (scov x y : ℝ) ^ 2 := by
      nlinarith [hab, habs, habsnn, ha2, hb2]
    exact_mod_cast hR

/-- C4: the selection loop picks exactly the columns whose absolute
Pearson correlation with the target column `Mcz` is defined (both columns
non-constant, where `corr` would otherwise be NaN) and strictly greater
than `0.5`; no column at or below the threshold is picked. -/
theorem c4_preds_are_columns_with_abs_corr_above_half (t : Table) (c : String) :
    c ∈ preds t ↔
      c ∈ t.cols ∧ 0 < svar (getCol t c) ∧ 0 < svar (getCol t "Mcz") ∧
        (1 : ℝ)/2 < |pearsonCorr (getCol t c) (getCol t "Mcz")| := by
  unfold preds
  rw [List.mem_filter]
  unfold corrAboveHalf
  simp only [Bool.and_eq_true, decide_eq_true_eq, and_assoc]
  constructor
  · rintro ⟨hc, hx, hy, h⟩
    exact ⟨hc, hx, hy, (scov_sq_lt_iff_abs_pearson _ _ hx hy).mp h⟩
  · rintro ⟨hc, hx, hy, h⟩
    exact ⟨hc, hx, hy, (scov_sq_lt_iff_abs_pearson _ _ hx hy).mpr h⟩

/-- C9: after `dropna`, the only further mutation of the galaxies table is
the addition of the single derived `bool` column: the final table is
exactly the cleaned table with that one column appended, with no existing
row or column removed or modified and every row kept in place (the table
being rectangular with an `Mcz` column and no prior `bool` column, as any
loaded CSV with the COMBO17 schema is). -/
theorem c9_no_mutation_after_dropna_except_bool_column (t : Table)
    (hr : ∀ r ∈ t.rows, r.length = t.cols.length)
    (hm : "Mcz" ∈ t.cols) (hb : "bool" ∉ t.cols)
    (Labr : RegLearner ABRParams) (Lxgb : RegLearner XGBParams)
    (Labc : ClsLearner ABCParams) (Lgbc : ClsLearner GBCParams)
    (rho : Nat → List Nat) :
    (pipeline Labr Lxgb Labc Lgbc t rho).galaxiesFinal = assignBool (dropna t) ∧
    (assignBool (dropna t)).cols = (dropna t).cols ++ ["bool"] ∧
    (assignBool (dropna t)).rows.length = (dropna t).rows.length ∧
    (assignBool (dropna t)).rows.map (fun r => r.take (dropna t).cols.length)
      = (dropna t).rows := by
  have hr' : ∀ r ∈ (dropna t).rows, r.length = (dropna t).cols.length :=
    fun r hrr => hr r (List.mem_of_mem_filter hrr)
  have hb' : "bool" ∉ (dropna t).cols := hb
  have hm' : "Mcz" ∈ (dropna t).cols := hm
  have hmatch : assignBool (dropna t) =
      ⟨(dropna t).cols ++ ["bool"],
        List.zipWith (fun r b => r ++ [Cell.bool b]) (dropna t).rows
          (mczGtHalf (dropna t))⟩ := by
    unfold assignBool
    rw [colIdx_eq_none _ _ hb']
  have hlen : (mczGtHalf (dropna t)).length = (dropna t).rows.length := by
    unfold mczGtHalf
    rw [List.length_map]
    exact length_getCol_of_mem _ _ hm'
  refine ⟨rfl, by rw [hmatch], ?_, ?_⟩
  · rw [hmatch]
    simp [List.length_zipWith, hlen]
  · rw [hmatch]
    simp only
    rw [zipWith_appendBool_take _ _ _ hr', hlen, List.take_length]

/-- Witness for C9 at the concrete eight-row table. -/
theorem c9_no_mutation_after_dropna_except_bool_column_witness :
    ((∀ r ∈ tbl8.rows, r.length = tbl8.cols.length) ∧
      "Mcz" ∈ tbl8.cols ∧ "bool" ∉ tbl8.cols) ∧
    (assignBool (dropna tbl8)).cols = (dropna tbl8).cols ++ ["bool"] :=
  ⟨⟨by decide, by decide, by decide⟩,
    (c9_no_mutation_after_dropna_except_bool_column tbl8 (by decide) (by decide)
      (by decide) (trivialReg _) (trivialReg _) (trivialCls _) (trivialCls _)
      rhoA).2.1⟩

/-! Concrete evaluation helpers for the eight-row table. -/

/-- The derived label column of the cleaned eight-row table. -/
theorem boolCol_tbl8 : boolColOf (assignBool (dropna tbl8)) =
    [true, true, false, true, true, true, true, true] := by
  rw [show dropna tbl8 = tbl8 from rfl]
  rw [boolColOf_assignBool tbl8 (by decide) (by decide)]
  simp only [mczGtHalf, show getCol tbl8 "Mcz" = [1,1,0,1,1,1,1,1] from rfl,
    List.map_cons, List.map_nil]
  norm_num

/-- The second split is `train_test_split` of the feature column and the
label column under the ambient permutation — the one draw of external
randomness in the program. -/
theorem pipeline_split2 (L1 : RegLearner ABRParams) (L2 : RegLearner XGBParams)
    (L3 : ClsLearner ABCParams) (L4 : ClsLearner GBCParams)
    (g0 : Table) (rho : Nat → List Nat) :
    (pipeline L1 L2 L3 L4 g0 rho).split2 =
      train_test_split (rho (getCol (dropna g0) "S280MAG").length)
        (getCol (dropna g0) "S280MAG") (boolColOf (assignBool (dropna g0))) := rfl

/-- The second split of the eight-row table under the identity draw. -/
theorem split2_tbl8_rhoA (L1 : RegLearner ABRParams) (L2 : RegLearner XGBParams)
    (L3 : ClsLearner ABCParams) (L4 : ClsLearner GBCParams) :
    (pipeline L1 L2 L3 L4 tbl8 rhoA).split2 =
      ⟨[0,0,0,0,0,0], [0,0], [false,true,true,true,true,true], [true,true]⟩ := by
  rw [pipeline_split2, boolCol_tbl8]
  rfl

/-- The second split of the eight-row table under the other draw. -/
theorem split2_tbl8_rhoB (L1 : RegLearner ABRParams) (L2 : RegLearner XGBParams)
    (L3 : ClsLearner ABCParams) (L4 : ClsLearner GBCParams) :
    (pipeline L1 L2 L3 L4 tbl8 rhoB).split2 =
      ⟨[0,0,0,0,0,0], [0,0], [true,true,true,true,true,true], [true,false]⟩ := by
  rw [pipeline_split2, boolCol_tbl8]
  rfl

/-- C1 (code bug): the claim says every ensemble model is fitted on the
training partition of the preceding split — but `gbc.fit(x_test2, y_test2)`
hands `GradientBoostingClassifier` the TEST partition of the second split
(the very rows all its reported metrics are then computed on), unlike
`abc`, which is fitted on the training partition.  The first conjunct
identifies, for every input, the data `gbc` is fitted on with the second
split's test partition; the second shows at a concrete input that this is
not the training partition. -/
theorem c1_gbc_fitted_on_test_partition :
    (∀ (L1 : RegLearner ABRParams) (L2 : RegLearner XGBParams)
        (L3 : ClsLearner ABCParams) (L4 : ClsLearner GBCParams)
        (g0 : Table) (rho : Nat → List Nat),
      (pipeline L1 L2 L3 L4 g0 rho).gbcFitX =
        (pipeline L1 L2 L3 L4 g0 rho).split2.xTest ∧
      (pipeline L1 L2 L3 L4 g0 rho).gbcFitY =
        (pipeline L1 L2 L3 L4 g0 rho).split2.yTest ∧
      (pipeline L1 L2 L3 L4 g0 rho).abcFitX =
        (pipeline L1 L2 L3 L4 g0 rho).split2.xTrain) ∧
    ∀ (L1 : RegLearner ABRParams) (L2 : RegLearner XGBParams)
      (L3 : ClsLearner ABCParams) (L4 : ClsLearner GBCParams),
      (pipeline L1 L2 L3 L4 tbl8 rhoA).gbcFitX ≠
        (pipeline L1 L2 L3 L4 tbl8 rhoA).split2.xTrain := by
  refine ⟨fun _ _ _ _ _ _ => ⟨rfl, rfl, rfl⟩, fun L1 L2 L3 L4 => ?_⟩
  intro h
  rw [show (pipeline L1 L2 L3 L4 tbl8 rhoA).gbcFitX = ([0,0] : List ℚ) from rfl,
    show (pipeline L1 L2 L3 L4 tbl8 rhoA).split2.xTrain =
      ([0,0,0,0,0,0] : List ℚ) from rfl] at h
  simp at h

/-- C8: the second `train_test_split` passes no random seed, so the second
partition is read off the ambient randomness; and there are an input table
and two ambient draws under which — whatever prediction functions the
library's (deterministic, seeded) classifiers learn — the two runs
partition the rows differently AND report different classification scores
(here: the GradientBoostingClassifier accuracy), even though every model
constructor and the first split fix `random_state=42`. -/
theorem c8_classification_scores_depend_on_ambient_randomness :
    (∀ (L1 : RegLearner ABRParams) (L2 : RegLearner XGBParams)
        (L3 : ClsLearner ABCParams) (L4 : ClsLearner GBCParams)
        (g0 : Table) (rho : Nat → List Nat),
      (pipeline L1 L2 L3 L4 g0 rho).split2 =
        train_test_split (rho (getCol (dropna g0) "S280MAG").length)
          (getCol (dropna g0) "S280MAG") (boolColOf (assignBool (dropna g0)))) ∧
    ∃ (g0 : Table) (rho1 rho2 : Nat → List Nat),
      ∀ (L1 : RegLearner ABRParams) (L2 : RegLearner XGBParams)
        (L3 : ClsLearner ABCParams) (L4 : ClsLearner GBCParams),
        (pipeline L1 L2 L3 L4 g0 rho1).split2 ≠
          (pipeline L1 L2 L3 L4 g0 rho2).split2 ∧
        (pipeline L1 L2 L3 L4 g0 rho1).gbcScore ≠
          (pipeline L1 L2 L3 L4 g0 rho2).gbcScore := by
  refine ⟨fun L1 L2 L3 L4 g0 rho => pipeline_split2 L1 L2 L3 L4 g0 rho,
    tbl8, rhoA, rhoB, fun L1 L2 L3 L4 => ⟨?_, ?_⟩⟩
  · rw [split2_tbl8_rhoA L1 L2 L3 L4, split2_tbl8_rhoB L1 L2 L3 L4]
    simp
  · have hA : (pipeline L1 L2 L3 L4 tbl8 rhoA).gbcScore =
        accuracy_score ((pipeline L1 L2 L3 L4 tbl8 rhoA).split2.yTest)
          (((pipeline L1 L2 L3 L4 tbl8 rhoA).split2.xTest).map
            (L4 gbcParams ((pipeline L1 L2 L3 L4 tbl8 rhoA).split2.xTest)
              ((pipeline L1 L2 L3 L4 tbl8 rhoA).split2.yTest))) := rfl
    have hB : (pipeline L1 L2 L3 L4 tbl8 rhoB).gbcScore =
        accuracy_score ((pipeline L1 L2 L3 L4 tbl8 rhoB).split2.yTest)
          (((pipeline L1 L2 L3 L4 tbl8 rhoB).split2.xTest).map
            (L4 gbcParams ((pipeline L1 L2 L3 L4 tbl8 rhoB).split2.xTest)
              ((pipeline L1 L2 L3 L4 tbl8 rhoB).split2.yTest))) := rfl
    rw [split2_tbl8_rhoA L1 L2 L3 L4] at hA
    rw [split2_tbl8_rhoB L1 L2 L3 L4] at hB
    rw [hA, hB]
    simp only [List.map_cons, List.map_nil]
    cases hf : L4 gbcParams [0,0] [true,true] 0 <;>
      cases hg : L4 gbcParams [0,0] [true,false] 0 <;>
        simp [accuracy_score]

/-- C10, counterexample to "the predictor list always contains `Mcz`": on
a table whose `Mcz` column is constant, `DataFrame.corr` against `Mcz` is
NaN everywhere, the comparison `abs(NaN) > 0.5` is `False`, and `Mcz`
itself is not selected. -/
theorem c10_counterexample_constant_mcz_not_selected :
    "Mcz" ∉ preds constMczTable := by
  intro h
  rw [preds, List.mem_filter] at h
  obtain ⟨-, hc⟩ := h
  rw [show getCol constMczTable "Mcz" = [1,1] from rfl] at hc
  rw [corrAboveHalf] at hc
  simp only [Bool.and_eq_true, decide_eq_true_eq] at hc
  have hsv : svar ([1,1] : List ℚ) = 0 := by
    norm_num [svar, scov, lsum, List.zipWith_cons_cons]
  rw [hsv] at hc
  exact lt_irrefl 0 hc.1.1

/-- C10 (amended): whenever the cleaned table has an `Mcz` column that is
not constant (so its self-correlation is defined and equals 1 > 0.5), the
predictor list contains `Mcz` itself; and the list is never consumed by
any later modeling step — the x-data of every `fit` in the pipeline
(AdaBoost regressor, the grid search, XGBoost, and both classifiers) is
drawn from the single feature column `S280MAG` alone. -/
theorem c10_amended_mcz_selected_and_fits_use_only_s280mag (t : Table)
    (hm : "Mcz" ∈ t.cols) (hv : 0 < svar (getCol t "Mcz")) :
    "Mcz" ∈ preds t ∧
    ∀ (L1 : RegLearner ABRParams) (L2 : RegLearner XGBParams)
      (L3 : ClsLearner ABCParams) (L4 : ClsLearner GBCParams)
      (g0 : Table) (rho : Nat → List Nat),
      (∃ p, (pipeline L1 L2 L3 L4 g0 rho).abrFitX =
        applyPerm p (getCol (dropna g0) "S280MAG")) ∧
      (∃ p, (pipeline L1 L2 L3 L4 g0 rho).gsFitX =
        applyPerm p (getCol (dropna g0) "S280MAG")) ∧
      (∃ p, (pipeline L1 L2 L3 L4 g0 rho).xgbFitX =
        applyPerm p (getCol (dropna g0) "S280MAG")) ∧
      (∃ p, (pipeline L1 L2 L3 L4 g0 rho).abcFitX =
        applyPerm p (getCol (dropna g0) "S280MAG")) ∧
      (∃ p, (pipeline L1 L2 L3 L4 g0 rho).gbcFitX =
        applyPerm p (getCol (dropna g0) "S280MAG")) := by
  constructor
  · rw [preds, List.mem_filter]
    refine ⟨hm, ?_⟩
    rw [corrAboveHalf]
    simp only [Bool.and_eq_true, decide_eq_true_eq]
    refine ⟨⟨hv, hv⟩, ?_⟩
    show svar (getCol t "Mcz") * svar (getCol t "Mcz") <
      4 * svar (getCol t "Mcz") ^ 2
    nlinarith [hv]
  · intro L1 L2 L3 L4 g0 rho
    exact ⟨⟨_, rfl⟩, ⟨_, rfl⟩, ⟨_, rfl⟩, ⟨_, rfl⟩, ⟨_, rfl⟩⟩

/-- Witness for the amended C10 at a two-row table with non-constant
`Mcz`. -/
theorem c10_amended_mcz_selected_and_fits_use_only_s280mag_witness :
    ("Mcz" ∈ varMczTable.cols ∧ 0 < svar (getCol varMczTable "Mcz")) ∧
    "Mcz" ∈ preds varMczTable := by
  have hv : 0 < svar (getCol varMczTable "Mcz") := by
    rw [show getCol varMczTable "Mcz" = [0,1] from rfl]
    norm_num [svar, scov, lsum, List.zipWith_cons_cons]
  exact ⟨⟨by decide, hv⟩,
    (c10_amended_mcz_selected_and_fits_use_only_s280mag varMczTable
      (by decide) hv).1⟩

end Boosting
